import Mathlib

/-!
Shallow embedding of the AudioInsight server core: the in-memory entity
store (`src/server/storage.ts`, class `MemStorage`), the HTTP route
handlers that the claims concern (`src/server/routes.ts`), and the
recording-processing pipeline (`processRecording` in the same file).

Modelling conventions:
* JavaScript `Map` objects preserve insertion order; they are embedded as
  association lists `List (Nat × α)` with `mapGet`/`mapSet`/`Map.delete`
  semantics (set of an existing key replaces in place, set of a fresh key
  appends at the end).
* ISO-8601 timestamp strings compared via `new Date(x).getTime()` are
  embedded as the encoded instant, a `Nat`.
* Numeric fields that carry JavaScript numbers are `Int`; fractional
  seconds returned by the transcription service are abstracted to integers
  (so `Math.round` on a segment start is the identity on the model).
* Store methods are `async` in the source but contain no internal await on
  shared state; they are embedded as pure state transformers.  The only
  store method that can throw, `updateRecording`, returns `Except`.
* Throwing external calls (file read, transcription, chat and summary
  completions) are embedded as explicit outcome parameters.
-/

/-- Row of the `users` table (`shared/schema.ts`). -/
structure User where
  id : Nat
  username : String
  password : String
deriving DecidableEq

/-- Row of the `recordings` table (`shared/schema.ts`): `createdAt` is the
instant encoded by the stored ISO string. -/
structure Recording where
  id : Nat
  title : String
  filename : String
  duration : Int
  processed : Bool
  transcribed : Bool
  createdAt : Nat
deriving DecidableEq

/-- Row of the `transcripts` table (`shared/schema.ts`): one transcript
segment. -/
structure Transcript where
  id : Nat
  recordingId : Nat
  speaker : String
  timestamp : Int
  text : String
deriving DecidableEq

/-- Row of the `summaries` table (`shared/schema.ts`). -/
structure Summary where
  id : Nat
  recordingId : Nat
  type : String
  content : String
deriving DecidableEq

/-- Row of the `chat_messages` table (`shared/schema.ts`): `timestamp` is
the instant encoded by the stored ISO string. -/
structure ChatMessage where
  id : Nat
  recordingId : Nat
  role : String
  content : String
  timestamp : Nat
deriving DecidableEq

/-- `Map.prototype.get`: first (unique) binding of the key. -/
def mapGet {α : Type} : List (Nat × α) → Nat → Option α
  | [], _ => none
  | (k, v) :: rest, key => if k = key then some v else mapGet rest key

/-- `Map.prototype.set`: replace in place when the key is bound, append
otherwise. -/
def mapSet {α : Type} : List (Nat × α) → Nat → α → List (Nat × α)
  | [], key, value => [(key, value)]
  | (k, v) :: rest, key, value =>
      if k = key then (key, value) :: rest else (k, v) :: mapSet rest key value

/-- `Map.prototype.delete`: drop the binding of the key (no-op when
absent; on a map, at most one binding carries the key). -/
def mapDelete {α : Type} (l : List (Nat × α)) (key : Nat) : List (Nat × α) :=
  l.filter (fun p => p.1 != key)

/-- The private state of `MemStorage` (`src/server/storage.ts`): one map
and one id counter per entity kind. -/
structure MemStorage where
  users : List (Nat × User)
  recordings : List (Nat × Recording)
  transcripts : List (Nat × Transcript)
  summaries : List (Nat × Summary)
  chatMessages : List (Nat × ChatMessage)
  userIdCounter : Nat
  recordingIdCounter : Nat
  transcriptIdCounter : Nat
  summaryIdCounter : Nat
  chatMessageIdCounter : Nat
deriving DecidableEq

/-- The `MemStorage` constructor: empty maps, counters at 1. -/
def MemStorage.empty : MemStorage :=
  ⟨[], [], [], [], [], 1, 1, 1, 1, 1⟩

namespace MemStorage

/-- `MemStorage.getUser`. -/
def getUser (s : MemStorage) (id : Nat) : Option User :=
  mapGet s.users id

/-- `MemStorage.getRecording`. -/
def getRecording (s : MemStorage) (id : Nat) : Option Recording :=
  mapGet s.recordings id

/-- Comparator of `MemStorage.getAllRecordings`:
`(a, b) => new Date(b.createdAt).getTime() - new Date(a.createdAt).getTime()`,
i.e. `a` may precede `b` exactly when `b.createdAt ≤ a.createdAt`. -/
def createdDesc (a b : Recording) : Prop :=
  b.createdAt ≤ a.createdAt

instance : DecidableRel createdDesc :=
  fun a b => Nat.decLe b.createdAt a.createdAt

instance : IsTotal Recording createdDesc :=
  ⟨fun a b => Nat.le_total b.createdAt a.createdAt⟩

instance : IsTrans Recording createdDesc :=
  ⟨fun _ _ _ hab hbc => Nat.le_trans hbc hab⟩

/-- `MemStorage.getAllRecordings`: all values, sorted newest first. -/
def getAllRecordings (s : MemStorage) : List Recording :=
  List.insertionSort createdDesc (s.recordings.map Prod.snd)

/-- Argument of `MemStorage.createRecording` (`InsertRecording`). -/
structure InsertRecording where
  title : String
  filename : String
  duration : Int

/-- `MemStorage.createRecording`: allocate the next id, store the row with
both flags false; `now` is the instant of `new Date().toISOString()`. -/
def createRecording (s : MemStorage) (ins : InsertRecording) (now : Nat) :
    Recording × MemStorage :=
  let id := s.recordingIdCounter
  let recording : Recording :=
    { id := id, title := ins.title, filename := ins.filename,
      duration := ins.duration, processed := false, transcribed := false,
      createdAt := now }
  (recording,
    { s with recordings := mapSet s.recordings id recording,
             recordingIdCounter := id + 1 })

end MemStorage

/-- A `Partial<Recording>`: each field optionally present. -/
structure RecordingPatch where
  id : Option Nat := none
  title : Option String := none
  filename : Option String := none
  duration : Option Int := none
  processed : Option Bool := none
  transcribed : Option Bool := none
  createdAt : Option Nat := none

/-- Object spread `{ ...recording, ...updateData }`: fields present in the
patch win. -/
def RecordingPatch.applyTo (p : RecordingPatch) (r : Recording) : Recording :=
  { id := p.id.getD r.id, title := p.title.getD r.title,
    filename := p.filename.getD r.filename,
    duration := p.duration.getD r.duration,
    processed := p.processed.getD r.processed,
    transcribed := p.transcribed.getD r.transcribed,
    createdAt := p.createdAt.getD r.createdAt }

/-- The one error a store method can throw:
`Recording with id ... not found` in `updateRecording`. -/
inductive StoreError where
  | recordingNotFound (id : Nat)
deriving DecidableEq

namespace MemStorage

/-- `MemStorage.updateRecording`: throws when the id is unbound, otherwise
merges the patch over the current row and stores the result. -/
def updateRecording (s : MemStorage) (id : Nat) (p : RecordingPatch) :
    Except StoreError (Recording × MemStorage) :=
  match mapGet s.recordings id with
  | none => .error (.recordingNotFound id)
  | some recording =>
      let updated := p.applyTo recording
      .ok (updated, { s with recordings := mapSet s.recordings id updated })

/-- `MemStorage.deleteRecording`: delete the recording's binding, then
every transcript, summary and chat message whose `recordingId` matches.
Iterating a JS `Map` while deleting visited matches removes exactly the
matching entries. -/
def deleteRecording (s : MemStorage) (id : Nat) : MemStorage :=
  { s with
    recordings := mapDelete s.recordings id,
    transcripts := s.transcripts.filter (fun p => p.2.recordingId != id),
    summaries := s.summaries.filter (fun p => p.2.recordingId != id),
    chatMessages := s.chatMessages.filter (fun p => p.2.recordingId != id) }

/-- `MemStorage.getTranscript`. -/
def getTranscript (s : MemStorage) (id : Nat) : Option Transcript :=
  mapGet s.transcripts id

/-- Comparator of `MemStorage.getTranscriptByRecordingId`:
`(a, b) => a.timestamp - b.timestamp`. -/
def timestampAsc (a b : Transcript) : Prop :=
  a.timestamp ≤ b.timestamp

instance : DecidableRel timestampAsc :=
  fun a b => Int.decLe a.timestamp b.timestamp

instance : IsTotal Transcript timestampAsc :=
  ⟨fun a b => Int.le_total a.timestamp b.timestamp⟩

instance : IsTrans Transcript timestampAsc :=
  ⟨fun _ _ _ hab hbc => Int.le_trans hab hbc⟩

/-- `MemStorage.getTranscriptByRecordingId`: values filtered on the
foreign key, sorted by ascending timestamp. -/
def getTranscriptByRecordingId (s : MemStorage) (recordingId : Nat) :
    List Transcript :=
  List.insertionSort timestampAsc
    ((s.transcripts.map Prod.snd).filter (fun t => t.recordingId == recordingId))

/-- Argument of `MemStorage.createTranscript` (`InsertTranscript`). -/
structure InsertTranscript where
  recordingId : Nat
  speaker : String
  timestamp : Int
  text : String

/-- `MemStorage.createTranscript`: allocate the next id and store. -/
def createTranscript (s : MemStorage) (ins : InsertTranscript) :
    Transcript × MemStorage :=
  let id := s.transcriptIdCounter
  let transcript : Transcript :=
    { id := id, recordingId := ins.recordingId, speaker := ins.speaker,
      timestamp := ins.timestamp, text := ins.text }
  (transcript,
    { s with transcripts := mapSet s.transcripts id transcript,
             transcriptIdCounter := id + 1 })

/-- `MemStorage.getSummary`. -/
def getSummary (s : MemStorage) (id : Nat) : Option Summary :=
  mapGet s.summaries id

/-- `MemStorage.getSummaryByType`: first value (in insertion order)
matching both the foreign key and the type tag. -/
def getSummaryByType (s : MemStorage) (recordingId : Nat) (type : String) :
    Option Summary :=
  (s.summaries.map Prod.snd).find?
    (fun sm => sm.recordingId == recordingId && sm.type == type)

/-- Argument of `MemStorage.createSummary` (`InsertSummary`). -/
structure InsertSummary where
  recordingId : Nat
  type : String
  content : String

/-- `MemStorage.createSummary`: allocate the next id and store. -/
def createSummary (s : MemStorage) (ins : InsertSummary) :
    Summary × MemStorage :=
  let id := s.summaryIdCounter
  let summary : Summary :=
    { id := id, recordingId := ins.recordingId, type := ins.type,
      content := ins.content }
  (summary,
    { s with summaries := mapSet s.summaries id summary,
             summaryIdCounter := id + 1 })

/-- Comparator of `MemStorage.getChatMessages`:
`(a, b) => new Date(a.timestamp).getTime() - new Date(b.timestamp).getTime()`. -/
def chatTimeAsc (a b : ChatMessage) : Prop :=
  a.timestamp ≤ b.timestamp

instance : DecidableRel chatTimeAsc :=
  fun a b => Nat.decLe a.timestamp b.timestamp

instance : IsTotal ChatMessage chatTimeAsc :=
  ⟨fun a b => Nat.le_total a.timestamp b.timestamp⟩

instance : IsTrans ChatMessage chatTimeAsc :=
  ⟨fun _ _ _ hab hbc => Nat.le_trans hab hbc⟩

/-- `MemStorage.getChatMessages`: values filtered on the foreign key,
sorted by ascending timestamp. -/
def getChatMessages (s : MemStorage) (recordingId : Nat) : List ChatMessage :=
  List.insertionSort chatTimeAsc
    ((s.chatMessages.map Prod.snd).filter (fun m => m.recordingId == recordingId))

/-- Argument of `MemStorage.createChatMessage` (`InsertChatMessage`). -/
structure InsertChatMessage where
  recordingId : Nat
  role : String
  content : String

/-- `MemStorage.createChatMessage`: allocate the next id, stamp with `now`
(the instant of `new Date().toISOString()`) and store. -/
def createChatMessage (s : MemStorage) (ins : InsertChatMessage) (now : Nat) :
    ChatMessage × MemStorage :=
  let id := s.chatMessageIdCounter
  let message : ChatMessage :=
    { id := id, recordingId := ins.recordingId, role := ins.role,
      content := ins.content, timestamp := now }
  (message,
    { s with chatMessages := mapSet s.chatMessages id message,
             chatMessageIdCounter := id + 1 })

end MemStorage

/-!
Route handlers (`src/server/routes.ts`).  Each handler is embedded from
the point where the id has been parsed; the surrounding try/catch returns
a 500 only for errors none of the embedded operations can raise.
-/

/-- Outcome of `GET /api/recordings/:id/status`. -/
inductive StatusResponse where
  | notFound
  | ok (progress : Nat) (status : String)
deriving DecidableEq

/-- Handler of `GET /api/recordings/:id/status` (`routes.ts`): 404 when
the recording is absent; otherwise `progress`/`status` start at
`0`/`"Processing"` and every branch of the if-chain overwrites them. -/
def statusHandler (s : MemStorage) (id : Nat) : StatusResponse :=
  match s.getRecording id with
  | none => .notFound
  | some recording =>
      if recording.transcribed then .ok 100 "Completed"
      else if recording.processed then .ok 75 "Generating insights"
      else .ok 25 "Transcribing audio"

/-- Handler of `GET /api/recordings/:id/transcript` (`routes.ts`). -/
def transcriptHandler (s : MemStorage) (id : Nat) : List Transcript :=
  s.getTranscriptByRecordingId id

/-- `generateSummary` (`routes.ts`): selects one of the five fixed prompt
templates (or the generic fallback) for the tag, calls the chat-completion
service, and persists the result.  The template only shapes the external
prompt; `aiContent` is the text the service returned.  Returns the stored
summary row. -/
def generateSummary (s : MemStorage) (recordingId : Nat) (type : String)
    (aiContent : String) : Summary × MemStorage :=
  s.createSummary { recordingId := recordingId, type := type, content := aiContent }

/-- Outcome of `GET /api/recordings/:id/summary/:type`; `generations`
counts the `generateSummary` invocations the request performed. -/
inductive SummaryResponse where
  | notFoundRecording
  | notFoundTranscript
  | upstreamError
  | ok (content : String)
deriving DecidableEq

/-- Handler of `GET /api/recordings/:id/summary/:type` (`routes.ts`):
return the stored summary's content, or lazily generate one when none is
stored (404 when the recording or its transcript is missing).  `ai` is the
chat-completion outcome (`none` = the external call threw, surfaced as a
500 by the handler's catch). -/
def summaryHandler (s : MemStorage) (id : Nat) (type : String)
    (ai : Option String) : SummaryResponse × MemStorage × Nat :=
  match s.getSummaryByType id type with
  | some summary => (.ok summary.content, s, 0)
  | none =>
      match s.getRecording id with
      | none => (.notFoundRecording, s, 0)
      | some _ =>
          let transcript := s.getTranscriptByRecordingId id
          if transcript.length = 0 then (.notFoundTranscript, s, 0)
          else
            match ai with
            | none => (.upstreamError, s, 1)
            | some content =>
                let (newSummary, s1) := generateSummary s id type content
                (.ok newSummary.content, s1, 1)

/-- Outcome of `POST /api/recordings/:id/chat`. -/
inductive ChatResponse where
  | badRequest
  | notFoundRecording
  | notFoundTranscript
  | upstreamError
  | ok (response : String)
deriving DecidableEq

/-- Handler of `POST /api/recordings/:id/chat` (`routes.ts`): 400 when the
message is falsy (empty), 404 when the recording or its transcript is
missing; otherwise the user message is saved, the chat completion runs
(`ai = none` models its throw, surfaced as a 500 after the user message
was already saved), and the assistant reply is saved. -/
def chatHandler (s : MemStorage) (id : Nat) (message : String)
    (ai : Option String) (now : Nat) : ChatResponse × MemStorage :=
  if message = "" then (.badRequest, s)
  else
    match s.getRecording id with
    | none => (.notFoundRecording, s)
    | some _ =>
        let transcript := s.getTranscriptByRecordingId id
        if transcript.length = 0 then (.notFoundTranscript, s)
        else
          let (_, s1) := s.createChatMessage
            { recordingId := id, role := "user", content := message } now
          match ai with
          | none => (.upstreamError, s1)
          | some aiResponse =>
              let (_, s2) := s1.createChatMessage
                { recordingId := id, role := "assistant", content := aiResponse } now
              (.ok aiResponse, s2)

/-!
The processing pipeline (`processRecording` in `routes.ts`).
-/

/-- One segment of a `verbose_json` transcription response; `start` is the
offset in seconds (fractions abstracted away, so `Math.round` is the
identity). -/
structure TranscriptionSegment where
  start : Int
  text : String

/-- The transcription response: optional segment list, optional whole
text, optional duration estimate. -/
structure TranscriptionResponse where
  segments : Option (List TranscriptionSegment)
  text : Option String
  duration : Option Int

/-- JavaScript `x || d` on an optional string operand: the default is
substituted when `x` is missing or holds the empty string, both falsy. -/
def orFallback (x : Option String) (d : String) : String :=
  match x with
  | none => d
  | some str => if str = "" then d else str

/-- Outcome of pipeline steps 1 and 2: either the file read or the
transcription call threw, or the service answered. -/
inductive TranscriptionOutcome where
  | failure
  | success (response : TranscriptionResponse)

/-- The spread `{ ...recording }` of a snapshot into an update payload:
every field present, carrying the snapshot's (possibly stale) values. -/
def snapshotPatch (r : Recording) : RecordingPatch :=
  { id := some r.id, title := some r.title, filename := some r.filename,
    duration := some r.duration, processed := some r.processed,
    transcribed := some r.transcribed, createdAt := some r.createdAt }

/-- The catch block of `processRecording`: force both flags true on the
snapshot spread, to reach a terminal state; the error itself is swallowed.
(The inner `updateRecording` can itself throw when the id is unbound; that
rejection leaves `processRecording` as an unhandled failure.) -/
def processRecordingCatch (s : MemStorage) (recording : Recording) :
    Except StoreError MemStorage :=
  match s.updateRecording recording.id
      { snapshotPatch recording with processed := some true, transcribed := some true } with
  | .error e => .error e
  | .ok (_, s1) => .ok s1

/-- `processRecording` (`routes.ts`), steps 1 to 5 plus the catch block.
Steps 1 and 2 (file read, transcription call) are summarized by `outcome`;
step 6, the detached five-way summary fan-out, mutates the store only
through later `generateSummary` completions and is not awaited here.
Every update payload spreads the stale `recording` snapshot taken at
pipeline entry. -/
def processRecording (s : MemStorage) (recording : Recording)
    (outcome : TranscriptionOutcome) : Except StoreError MemStorage :=
  match outcome with
  | .failure => processRecordingCatch s recording
  | .success transcription =>
      let patch1 : RecordingPatch :=
        if recording.duration = 0 then
          { snapshotPatch recording with
            duration := some (transcription.duration.getD 0),
            processed := some true }
        else
          { snapshotPatch recording with processed := some true }
      match s.updateRecording recording.id patch1 with
      | .error _ => processRecordingCatch s recording
      | .ok (_, s1) =>
          match transcription.segments with
          | some segments =>
              let s2 := segments.foldl
                (fun st segment =>
                  (st.createTranscript
                    { recordingId := recording.id, speaker := "Speaker",
                      timestamp := segment.start, text := segment.text }).2)
                s1
              match s2.updateRecording recording.id
                  { snapshotPatch recording with transcribed := some true } with
              | .error _ => processRecordingCatch s2 recording
              | .ok (_, s3) => .ok s3
          | none =>
              let s2 := (s1.createTranscript
                { recordingId := recording.id, speaker := "Speaker",
                  timestamp := 0,
                  text := orFallback transcription.text
                    "Unable to transcribe audio content" }).2
              match s2.updateRecording recording.id
                  { snapshotPatch recording with transcribed := some true } with
              | .error _ => processRecordingCatch s2 recording
              | .ok (_, s3) => .ok s3

/-!
Lemmas about the association-list model of JS maps.
-/

theorem mapGet_mapSet_self {α : Type} (l : List (Nat × α)) (k : Nat) (v : α) :
    mapGet (mapSet l k v) k = some v := by
  induction l with
  | nil => simp [mapSet, mapGet]
  | cons hd tl ih =>
      obtain ⟨k', v'⟩ := hd
      by_cases hk : k' = k
      · simp [mapSet, mapGet, hk]
      · simp [mapSet, mapGet, hk, ih]

theorem mapSet_of_fresh {α : Type} (l : List (Nat × α)) (k : Nat) (v : α)
    (h : ∀ p ∈ l, p.1 ≠ k) : mapSet l k v = l ++ [(k, v)] := by
  induction l with
  | nil => simp [mapSet]
  | cons hd tl ih =>
      obtain ⟨k', v'⟩ := hd
      have hk : k' ≠ k := h (k', v') (by simp)
      simp only [mapSet, if_neg hk, List.cons_append, List.cons.injEq, true_and]
      exact ih (fun p hp => h p (by simp [hp]))

theorem mapGet_eq_none_iff {α : Type} (l : List (Nat × α)) (k : Nat) :
    mapGet l k = none ↔ ∀ p ∈ l, p.1 ≠ k := by
  induction l with
  | nil => simp [mapGet]
  | cons hd tl ih =>
      obtain ⟨k', v'⟩ := hd
      by_cases hk : k' = k
      · simp [mapGet, hk]
      · simp [mapGet, hk, ih]

theorem mapGet_mapDelete_self {α : Type} (l : List (Nat × α)) (k : Nat) :
    mapGet (mapDelete l k) k = none := by
  rw [mapGet_eq_none_iff]
  intro p hp
  have := List.mem_filter.mp hp
  simpa using this.2

theorem mapGet_mapDelete_ne {α : Type} (l : List (Nat × α)) (k k' : Nat)
    (h : k' ≠ k) : mapGet (mapDelete l k) k' = mapGet l k' := by
  induction l with
  | nil => simp [mapDelete, mapGet]
  | cons hd tl ih =>
      obtain ⟨k0, v0⟩ := hd
      by_cases hk0 : k0 = k
      · subst hk0
        have : mapDelete ((k0, v0) :: tl) k0 = mapDelete tl k0 := by
          simp [mapDelete, List.filter]
        rw [this, ih]
        have : k0 ≠ k' := fun hc => h hc.symm
        simp [mapGet, this]
      · have hstep : mapDelete ((k0, v0) :: tl) k = (k0, v0) :: mapDelete tl k := by
          have hb : (k0 != k) = true := by simp [hk0]
          simp [mapDelete, List.filter, hb]
        rw [hstep]
        by_cases hk' : k0 = k'
        · simp [mapGet, hk']
        · simp [mapGet, hk', ih]

/-!
Derived facts about the store's list/get operations, shared by several
claims below.
-/

theorem mapGet_mem {α : Type} {l : List (Nat × α)} {k : Nat} {v : α}
    (h : mapGet l k = some v) : (k, v) ∈ l := by
  induction l with
  | nil => simp [mapGet] at h
  | cons hd tl ih =>
      obtain ⟨k', v'⟩ := hd
      by_cases hk : k' = k
      · subst hk
        simp [mapGet] at h
        simp [h]
      · simp [mapGet, hk] at h
        simp [ih h]

theorem getTranscriptByRecordingId_eq_nil (s : MemStorage) (rid : Nat)
    (h : ∀ p ∈ s.transcripts, p.2.recordingId ≠ rid) :
    s.getTranscriptByRecordingId rid = [] := by
  have hfilter :
      (s.transcripts.map Prod.snd).filter (fun t => t.recordingId == rid) = [] := by
    rw [List.filter_eq_nil_iff]
    intro t ht
    obtain ⟨p, hp, hpt⟩ := List.mem_map.mp ht
    subst hpt
    simp [h p hp]
  rw [MemStorage.getTranscriptByRecordingId, hfilter]
  rfl

theorem getChatMessages_eq_nil (s : MemStorage) (rid : Nat)
    (h : ∀ p ∈ s.chatMessages, p.2.recordingId ≠ rid) :
    s.getChatMessages rid = [] := by
  have hfilter :
      (s.chatMessages.map Prod.snd).filter (fun m => m.recordingId == rid) = [] := by
    rw [List.filter_eq_nil_iff]
    intro m hm
    obtain ⟨p, hp, hpm⟩ := List.mem_map.mp hm
    subst hpm
    simp [h p hp]
  rw [MemStorage.getChatMessages, hfilter]
  rfl

theorem getSummaryByType_eq_none (s : MemStorage) (rid : Nat) (ty : String)
    (h : ∀ p ∈ s.summaries, p.2.recordingId ≠ rid) :
    s.getSummaryByType rid ty = none := by
  rw [MemStorage.getSummaryByType, List.find?_eq_none]
  intro sm hsm
  obtain ⟨p, hp, hpsm⟩ := List.mem_map.mp hsm
  subst hpsm
  simp [h p hp]

/-!
Sample store states used to instantiate the claim theorems below.
-/

/-- A freshly created recording (both flags false). -/
def sampleRecording : Recording :=
  { id := 1, title := "Untitled Recording", filename := "1-a.mp3",
    duration := 5, processed := false, transcribed := false, createdAt := 1000 }

/-- A store holding only `sampleRecording`. -/
def sampleStore : MemStorage :=
  { MemStorage.empty with
    recordings := [(1, sampleRecording)], recordingIdCounter := 2 }

/-- A transcript segment with the later timestamp, inserted first. -/
def sampleSegLate : Transcript :=
  { id := 1, recordingId := 1, speaker := "Speaker", timestamp := 30,
    text := "second half" }

/-- A transcript segment with the earlier timestamp, inserted second. -/
def sampleSegEarly : Transcript :=
  { id := 2, recordingId := 1, speaker := "Speaker", timestamp := 10,
    text := "first half" }

/-- `sampleStore` with two segments inserted in reverse timestamp order. -/
def sampleStoreSegs : MemStorage :=
  { sampleStore with
    transcripts := [(1, sampleSegLate), (2, sampleSegEarly)],
    transcriptIdCounter := 3 }

/-- An older recording, inserted first. -/
def sampleOlder : Recording :=
  { id := 1, title := "old", filename := "1-b.mp3", duration := 7,
    processed := true, transcribed := true, createdAt := 500 }

/-- A newer recording, inserted second. -/
def sampleNewer : Recording :=
  { id := 2, title := "new", filename := "2-c.mp3", duration := 9,
    processed := false, transcribed := false, createdAt := 2000 }

/-- A store holding `sampleOlder` then `sampleNewer`. -/
def sampleStoreTwo : MemStorage :=
  { MemStorage.empty with
    recordings := [(1, sampleOlder), (2, sampleNewer)], recordingIdCounter := 3 }

/-- C2: for an existing recording the status handler returns exactly the
projection of `(processed, transcribed)`: transcribed gives 100
"Completed", processed-only gives 75 "Generating insights", neither gives
25 "Transcribing audio", and no other `(progress, status)` pair is ever
produced. -/
theorem status_projection_cases (s : MemStorage) (id : Nat) (r : Recording)
    (h : s.getRecording id = some r) :
    (r.transcribed = true → statusHandler s id = .ok 100 "Completed") ∧
    (r.transcribed = false → r.processed = true →
        statusHandler s id = .ok 75 "Generating insights") ∧
    (r.transcribed = false → r.processed = false →
        statusHandler s id = .ok 25 "Transcribing audio") ∧
    (statusHandler s id = .ok 100 "Completed" ∨
     statusHandler s id = .ok 75 "Generating insights" ∨
     statusHandler s id = .ok 25 "Transcribing audio") := by
  cases htr : r.transcribed <;> cases hpr : r.processed <;>
    simp [statusHandler, h, htr, hpr]

/-- Closed instance of `status_projection_cases` at a concrete store. -/
theorem status_projection_cases_witness :
    statusHandler sampleStore 1 = .ok 25 "Transcribing audio" :=
  (status_projection_cases sampleStore 1 sampleRecording (by decide)).2.2.1
    (by decide) (by decide)

/-- C4: listing the transcript of a recording yields precisely the stored
segments whose `recordingId` matches (as a permutation of the filtered
store contents, hence with multiplicity), in non-decreasing timestamp
order, for every store state and so independently of insertion order. -/
theorem transcript_listing_sorted_complete (s : MemStorage) (rid : Nat) :
    List.Pairwise (fun a b : Transcript => a.timestamp ≤ b.timestamp)
      (s.getTranscriptByRecordingId rid) ∧
    (s.getTranscriptByRecordingId rid).Perm
      ((s.transcripts.map Prod.snd).filter (fun t => t.recordingId == rid)) ∧
    ∀ t : Transcript,
      t ∈ s.getTranscriptByRecordingId rid ↔
        t ∈ s.transcripts.map Prod.snd ∧ t.recordingId = rid := by
  refine ⟨List.sorted_insertionSort MemStorage.timestampAsc _,
    List.perm_insertionSort MemStorage.timestampAsc _, fun t => ?_⟩
  rw [MemStorage.getTranscriptByRecordingId, List.mem_insertionSort,
    List.mem_filter]
  simp

/-- Closed instance of `transcript_listing_sorted_complete`: segments
inserted in reverse order still read back in timestamp order. -/
theorem transcript_listing_sorted_complete_witness :
    List.Pairwise (fun a b : Transcript => a.timestamp ≤ b.timestamp)
      (sampleStoreSegs.getTranscriptByRecordingId 1) ∧
    sampleSegEarly ∈ sampleStoreSegs.getTranscriptByRecordingId 1 :=
  ⟨(transcript_listing_sorted_complete sampleStoreSegs 1).1,
   ((transcript_listing_sorted_complete sampleStoreSegs 1).2.2
      sampleSegEarly).mpr (by decide)⟩

/-- C8: listing all recordings yields every stored recording (as a
permutation of the store contents) in non-increasing creation-time order,
for every store state. -/
theorem recordings_listing_sorted_complete (s : MemStorage) :
    List.Pairwise (fun a b : Recording => b.createdAt ≤ a.createdAt)
      s.getAllRecordings ∧
    s.getAllRecordings.Perm (s.recordings.map Prod.snd) ∧
    ∀ r : Recording, r ∈ s.getAllRecordings ↔ r ∈ s.recordings.map Prod.snd := by
  refine ⟨List.sorted_insertionSort MemStorage.createdDesc _,
    List.perm_insertionSort MemStorage.createdDesc _, fun r => ?_⟩
  rw [MemStorage.getAllRecordings, List.mem_insertionSort]

/-- Closed instance of `recordings_listing_sorted_complete`: recordings
inserted oldest-first still list newest-first. -/
theorem recordings_listing_sorted_complete_witness :
    List.Pairwise (fun a b : Recording => b.createdAt ≤ a.createdAt)
      sampleStoreTwo.getAllRecordings ∧
    sampleNewer ∈ sampleStoreTwo.getAllRecordings :=
  ⟨(recordings_listing_sorted_complete sampleStoreTwo).1,
   ((recordings_listing_sorted_complete sampleStoreTwo).2.2 sampleNewer).mpr
      (by decide)⟩

/-- C3: after delete-with-cascade the recording is absent and no
transcript segment, summary or chat message with the deleted
`recordingId` survives, so the list/get operations return nothing that
references it: the transcript and chat listings are empty, every
summary-by-type lookup misses, and no surviving transcript or summary row
carries the deleted id. -/
theorem deleteRecording_cascades (s : MemStorage) (id : Nat) :
    (s.deleteRecording id).getRecording id = none ∧
    (∀ p ∈ (s.deleteRecording id).transcripts, p.2.recordingId ≠ id) ∧
    (∀ p ∈ (s.deleteRecording id).summaries, p.2.recordingId ≠ id) ∧
    (∀ p ∈ (s.deleteRecording id).chatMessages, p.2.recordingId ≠ id) ∧
    (s.deleteRecording id).getTranscriptByRecordingId id = [] ∧
    (∀ ty, (s.deleteRecording id).getSummaryByType id ty = none) ∧
    (s.deleteRecording id).getChatMessages id = [] ∧
    (∀ tid t, (s.deleteRecording id).getTranscript tid = some t →
        t.recordingId ≠ id) ∧
    (∀ sid sm, (s.deleteRecording id).getSummary sid = some sm →
        sm.recordingId ≠ id) := by
  have htr : ∀ p ∈ (s.deleteRecording id).transcripts, p.2.recordingId ≠ id := by
    intro p hp
    have := (List.mem_filter.mp hp).2
    simpa using this
  have hsm : ∀ p ∈ (s.deleteRecording id).summaries, p.2.recordingId ≠ id := by
    intro p hp
    have := (List.mem_filter.mp hp).2
    simpa using this
  have hcm : ∀ p ∈ (s.deleteRecording id).chatMessages, p.2.recordingId ≠ id := by
    intro p hp
    have := (List.mem_filter.mp hp).2
    simpa using this
  refine ⟨mapGet_mapDelete_self s.recordings id, htr, hsm, hcm,
    getTranscriptByRecordingId_eq_nil _ id htr,
    fun ty => getSummaryByType_eq_none _ id ty hsm,
    getChatMessages_eq_nil _ id hcm, ?_, ?_⟩
  · intro tid t ht
    exact htr (tid, t) (mapGet_mem ht)
  · intro sid sm hs
    exact hsm (sid, sm) (mapGet_mem hs)

/-- Closed instance of `deleteRecording_cascades` at a concrete store with
one recording and two of its segments. -/
theorem deleteRecording_cascades_witness :
    (sampleStoreSegs.deleteRecording 1).getRecording 1 = none ∧
    (sampleStoreSegs.deleteRecording 1).getTranscriptByRecordingId 1 = [] ∧
    (sampleStoreSegs.deleteRecording 1).getSummaryByType 1 "general" = none ∧
    (sampleStoreSegs.deleteRecording 1).getChatMessages 1 = [] :=
  ⟨(deleteRecording_cascades sampleStoreSegs 1).1,
   (deleteRecording_cascades sampleStoreSegs 1).2.2.2.2.1,
   (deleteRecording_cascades sampleStoreSegs 1).2.2.2.2.2.1 "general",
   (deleteRecording_cascades sampleStoreSegs 1).2.2.2.2.2.2.1⟩

/-- A dangling transcript segment whose recording does not exist. -/
def danglingSeg : Transcript :=
  { id := 1, recordingId := 7, speaker := "Speaker", timestamp := 0,
    text := "orphaned" }

/-- A store with no recordings but one dangling segment for id 7. -/
def danglingStore : MemStorage :=
  { MemStorage.empty with
    transcripts := [(1, danglingSeg)], transcriptIdCounter := 2 }

/-- C10 counterexample: recording id 7 is not present, yet
delete-with-cascade of 7 changes the store (it removes the dangling
segment), refuting "deleting an id not present in the store leaves the
entire store unchanged". -/
theorem deleteRecording_absent_id_not_noop :
    danglingStore.getRecording 7 = none ∧
    danglingStore.deleteRecording 7 ≠ danglingStore := by
  refine ⟨by decide, ?_⟩
  intro hc
  have : (danglingStore.deleteRecording 7).transcripts =
      danglingStore.transcripts := by rw [hc]
  exact absurd this (by decide)

/-- C10 amended: delete-with-cascade preserves every recording stored
under a different key and every transcript segment, summary and chat
message whose `recordingId` differs (and creates nothing), never raises an
error, and is a complete no-op exactly when the id is absent and no
dependent row references it; dangling dependents of an absent id are
still removed. -/
theorem deleteRecording_frame (s : MemStorage) (id : Nat) :
    (∀ k, k ≠ id →
        mapGet (s.deleteRecording id).recordings k = mapGet s.recordings k) ∧
    (∀ p : Nat × Transcript, p.2.recordingId ≠ id →
        (p ∈ (s.deleteRecording id).transcripts ↔ p ∈ s.transcripts)) ∧
    (∀ p : Nat × Summary, p.2.recordingId ≠ id →
        (p ∈ (s.deleteRecording id).summaries ↔ p ∈ s.summaries)) ∧
    (∀ p : Nat × ChatMessage, p.2.recordingId ≠ id →
        (p ∈ (s.deleteRecording id).chatMessages ↔ p ∈ s.chatMessages)) ∧
    (s.getRecording id = none →
      (∀ p ∈ s.transcripts, p.2.recordingId ≠ id) →
      (∀ p ∈ s.summaries, p.2.recordingId ≠ id) →
      (∀ p ∈ s.chatMessages, p.2.recordingId ≠ id) →
      s.deleteRecording id = s) := by
  refine ⟨fun k hk => mapGet_mapDelete_ne s.recordings id k hk,
    fun p hp => ?_, fun p hp => ?_, fun p hp => ?_, ?_⟩
  · rw [show (s.deleteRecording id).transcripts =
        s.transcripts.filter (fun p => p.2.recordingId != id) from rfl,
      List.mem_filter]
    simp [hp]
  · rw [show (s.deleteRecording id).summaries =
        s.summaries.filter (fun p => p.2.recordingId != id) from rfl,
      List.mem_filter]
    simp [hp]
  · rw [show (s.deleteRecording id).chatMessages =
        s.chatMessages.filter (fun p => p.2.recordingId != id) from rfl,
      List.mem_filter]
    simp [hp]
  · intro hrec htr hsm hcm
    have h1 : mapDelete s.recordings id = s.recordings := by
      rw [mapDelete, List.filter_eq_self]
      intro p hp
      simpa using (mapGet_eq_none_iff s.recordings id).mp hrec p hp
    have h2 : s.transcripts.filter (fun p => p.2.recordingId != id) =
        s.transcripts := by
      rw [List.filter_eq_self]
      intro p hp
      simpa using htr p hp
    have h3 : s.summaries.filter (fun p => p.2.recordingId != id) =
        s.summaries := by
      rw [List.filter_eq_self]
      intro p hp
      simpa using hsm p hp
    have h4 : s.chatMessages.filter (fun p => p.2.recordingId != id) =
        s.chatMessages := by
      rw [List.filter_eq_self]
      intro p hp
      simpa using hcm p hp
    rw [MemStorage.deleteRecording, mapDelete] at *
    rw [h1, h2, h3, h4]

/-- Closed instance of `deleteRecording_frame`: deleting id 7 preserves
the segment of recording 1 and deleting an absent id from a clean store is
a no-op. -/
theorem deleteRecording_frame_witness :
    ((1, sampleSegLate) ∈ (sampleStoreSegs.deleteRecording 7).transcripts) ∧
    sampleStore.deleteRecording 7 = sampleStore :=
  ⟨((deleteRecording_frame sampleStoreSegs 7).2.1 (1, sampleSegLate)
      (by decide)).mpr (by decide),
   (deleteRecording_frame sampleStore 7).2.2.2.2 (by decide)
      (by decide) (by decide) (by decide)⟩

/-- C1: the invariant "transcribed implies processed" is violated by the
code on the successful pipeline path.  Starting from a store holding the
freshly created `sampleRecording` (duration 5, both flags false), a
successful segmented transcription drives the pipeline to completion, yet
the final stored recording has `transcribed = true` and
`processed = false`: the last update spreads the stale snapshot taken at
pipeline entry, reverting `processed` to `false`. -/
theorem pipeline_success_reverts_processed :
    (processRecording sampleStore sampleRecording
        (.success { segments := some [{ start := 10, text := "hello" }],
                    text := some "hello", duration := some 12 })).map
      (fun s1 => (s1.getRecording 1).map (fun u => (u.processed, u.transcribed)))
      = .ok (some (false, true)) := by
  rfl

/-- C5: when pipeline steps 1 or 2 throw (file read or transcription
call), and the recording id is present in the store, the catch block
swallows the error: the run completes without surfacing a failure, the
stored recording ends with both flags true, and no transcript segment,
summary or chat message is touched. -/
theorem pipeline_failure_swallowed (s : MemStorage) (r : Recording)
    (h : ∃ cur, s.getRecording r.id = some cur) :
    ∃ s1, processRecording s r .failure = .ok s1 ∧
      (∃ u, s1.getRecording r.id = some u ∧ u.processed = true ∧
        u.transcribed = true) ∧
      s1.transcripts = s.transcripts ∧ s1.summaries = s.summaries ∧
      s1.chatMessages = s.chatMessages := by
  obtain ⟨cur, hcur⟩ := h
  rw [MemStorage.getRecording] at hcur
  refine
    ⟨{ s with
        recordings := mapSet s.recordings r.id
          (RecordingPatch.applyTo
            { snapshotPatch r with
              processed := some true,
              transcribed := some true } cur) },
      ?_,
      ⟨RecordingPatch.applyTo
          { snapshotPatch r with
            processed := some true,
            transcribed := some true } cur,
        ?_, rfl, rfl⟩,
      rfl, rfl, rfl⟩
  · simp [processRecording, processRecordingCatch, MemStorage.updateRecording, hcur]
  · exact mapGet_mapSet_self s.recordings r.id _

/-- Closed instance of `pipeline_failure_swallowed`: a failed run on
`sampleStore` reports success and leaves the recording at both flags true
with zero transcript segments. -/
theorem pipeline_failure_swallowed_witness :
    (processRecording sampleStore sampleRecording .failure).map
        (fun s1 => ((s1.getRecording 1).map (fun u => (u.processed, u.transcribed)),
          s1.transcripts.length))
      = .ok (some (true, true), 0) := by
  obtain ⟨s1, h1, ⟨u, hu, hp, ht⟩, htr, _, _⟩ :=
    pipeline_failure_swallowed sampleStore sampleRecording ⟨sampleRecording, by decide⟩
  have hu1 : s1.getRecording 1 = some u := hu
  have hlen : s1.transcripts.length = 0 := by rw [htr]; rfl
  rw [h1]
  simp [Except.map, hu1, hp, ht, hlen]


/-- C6 amended: on the whole-text fallback (transcription returned no
segment list) with the recording id present in the store and a fresh
transcript counter, the pipeline persists exactly one transcript
segment: appended to the transcript map with the fixed speaker label
"Speaker", timestamp 0, and as its text the whole-text result when that
result is present and non-empty, and the fixed fallback string when it
is absent or empty (JS `||` falsiness). -/
theorem pipeline_fallback_single_segment (s : MemStorage) (r : Recording)
    (t : TranscriptionResponse) (hseg : t.segments = none)
    (hrec : ∃ cur, s.getRecording r.id = some cur)
    (hfresh : ∀ p ∈ s.transcripts, p.1 ≠ s.transcriptIdCounter) :
    ∃ s1, processRecording s r (.success t) = .ok s1 ∧
      s1.transcripts = s.transcripts ++
        [(s.transcriptIdCounter,
          { id := s.transcriptIdCounter, recordingId := r.id,
            speaker := "Speaker", timestamp := 0,
            text := orFallback t.text
              "Unable to transcribe audio content" })] := by
  obtain ⟨cur, hcur⟩ := hrec
  rw [MemStorage.getRecording] at hcur
  have hupdAny : ∀ (st : MemStorage) (c : Recording) (p : RecordingPatch),
      mapGet st.recordings r.id = some c →
      st.updateRecording r.id p =
        .ok (p.applyTo c,
          { st with recordings := mapSet st.recordings r.id (p.applyTo c) }) := by
    intro st c p hc
    simp [MemStorage.updateRecording, hc]
  obtain ⟨segs, htext, hdur⟩ := t
  have hseg' : segs = none := hseg
  subst hseg'
  simp only [processRecording]
  rw [hupdAny s cur _ hcur]
  dsimp only [MemStorage.createTranscript]
  rw [hupdAny _ _ _ (mapGet_mapSet_self s.recordings r.id _)]
  refine ⟨_, rfl, ?_⟩
  show mapSet s.transcripts s.transcriptIdCounter _ = _
  exact mapSet_of_fresh s.transcripts s.transcriptIdCounter _ hfresh

/-- Closed instance of `pipeline_fallback_single_segment`: a fallback run
on `sampleStore` stores the single placeholder segment. -/
theorem pipeline_fallback_single_segment_witness :
    (processRecording sampleStore sampleRecording
        (.success
          { segments := none, text := some "hi there", duration := some 9 })).map
      (fun s1 => s1.transcripts)
      = .ok [(1, { id := 1, recordingId := 1, speaker := "Speaker",
                   timestamp := 0, text := "hi there" })] := by
  obtain ⟨s1, h1, h2⟩ := pipeline_fallback_single_segment sampleStore
    sampleRecording
    { segments := none, text := some "hi there", duration := some 9 } rfl
    ⟨sampleRecording, by decide⟩ (by decide)
  rw [h1]
  simp only [Except.map]
  rw [h2]
  rfl

/-- C6 counterexample: when the transcription carries no segment list
and its whole-text result is present but empty, the persisted segment
carries the fixed fallback string, not the (present) whole-text result:
the source's `||` treats the empty string as falsy. -/
theorem pipeline_fallback_empty_text_stores_fallback :
    (processRecording sampleStore sampleRecording
        (.success { segments := none, text := some "", duration := some 9 })).map
      (fun s1 => s1.transcripts.map (fun p => p.2.text))
      = .ok ["Unable to transcribe audio content"] ∧
    "Unable to transcribe audio content" ≠ "" :=
  ⟨by rfl, by decide⟩

/-- C7: posting a chat message (non-empty, as required to get past the
400 check) to a recording that exists but has zero transcript segments
returns the transcript-missing 404 and leaves the store — in particular
the chat-message map — completely unchanged. -/
theorem chat_without_transcript_rejected (s : MemStorage) (id : Nat)
    (message : String) (ai : Option String) (now : Nat) (r : Recording)
    (hr : s.getRecording id = some r)
    (hseg : ∀ p ∈ s.transcripts, p.2.recordingId ≠ id)
    (hmsg : message ≠ "") :
    chatHandler s id message ai now = (.notFoundTranscript, s) := by
  have hnil : s.getTranscriptByRecordingId id = [] :=
    getTranscriptByRecordingId_eq_nil s id hseg
  simp [chatHandler, hmsg, hr, hnil]

/-- Closed instance of `chat_without_transcript_rejected` at a concrete
store with a recording and no segments. -/
theorem chat_without_transcript_rejected_witness :
    chatHandler sampleStore 1 "what was discussed?" (some "answer") 2000 =
      (.notFoundTranscript, sampleStore) :=
  chat_without_transcript_rejected sampleStore 1 "what was discussed?"
    (some "answer") 2000 sampleRecording (by decide) (by decide) (by decide)

/-- C9: fetching a summary type with no stored row for that
(recording, type) pair, on a recording that exists and has at least one
transcript segment, invokes `generateSummary` exactly once, appends
exactly one new summary row for that pair (under a fresh counter key),
and returns content equal to the content of the row just stored. -/
theorem summary_lazy_generation (s : MemStorage) (id : Nat) (ty : String)
    (content : String) (r : Recording)
    (hno : ∀ p ∈ s.summaries, ¬(p.2.recordingId = id ∧ p.2.type = ty))
    (hr : s.getRecording id = some r)
    (hseg : ∃ p ∈ s.transcripts, p.2.recordingId = id)
    (hfresh : ∀ p ∈ s.summaries, p.1 ≠ s.summaryIdCounter) :
    summaryHandler s id ty (some content) =
      (.ok content,
       { s with
         summaries := s.summaries ++
           [(s.summaryIdCounter,
             { id := s.summaryIdCounter, recordingId := id, type := ty,
               content := content })],
         summaryIdCounter := s.summaryIdCounter + 1 },
       1) := by
  have hfind : s.getSummaryByType id ty = none := by
    rw [MemStorage.getSummaryByType, List.find?_eq_none]
    intro sm hsm
    obtain ⟨p, hp, hpsm⟩ := List.mem_map.mp hsm
    subst hpsm
    intro hc
    simp only [Bool.and_eq_true, beq_iff_eq] at hc
    exact hno p hp hc
  have hlen : (s.getTranscriptByRecordingId id).length ≠ 0 := by
    obtain ⟨p, hp, hpid⟩ := hseg
    have hmem : p.2 ∈ (s.transcripts.map Prod.snd).filter
        (fun t => t.recordingId == id) :=
      List.mem_filter.mpr ⟨List.mem_map.mpr ⟨p, hp, rfl⟩, by simp [hpid]⟩
    have hlen_eq : (s.getTranscriptByRecordingId id).length =
        ((s.transcripts.map Prod.snd).filter
          (fun t => t.recordingId == id)).length :=
      (List.perm_insertionSort MemStorage.timestampAsc _).length_eq
    rw [hlen_eq]
    exact Nat.pos_iff_ne_zero.mp
      (List.length_pos.mpr (List.ne_nil_of_mem hmem))
  have happend : mapSet s.summaries s.summaryIdCounter
      { id := s.summaryIdCounter, recordingId := id, type := ty,
        content := content } =
      s.summaries ++
        [(s.summaryIdCounter,
          { id := s.summaryIdCounter, recordingId := id, type := ty,
            content := content })] :=
    mapSet_of_fresh s.summaries s.summaryIdCounter _ hfresh
  simp [summaryHandler, hfind, hr, hlen, generateSummary,
    MemStorage.createSummary, happend]

/-- Closed instance of `summary_lazy_generation`: a first fetch of the
"general" summary on a store with a transcript generates and stores one
row and returns its content. -/
theorem summary_lazy_generation_witness :
    summaryHandler sampleStoreSegs 1 "general" (some "a short recap") =
      (.ok "a short recap",
       { sampleStoreSegs with
         summaries := [(1, { id := 1, recordingId := 1, type := "general",
                             content := "a short recap" })],
         summaryIdCounter := 2 },
       1) :=
  summary_lazy_generation sampleStoreSegs 1 "general" "a short recap"
    sampleRecording (by decide) (by decide)
    ⟨(1, sampleSegLate), by decide, by decide⟩ (by decide)
